import Mathlib

/-!
Shallow embedding of the thermal control and alerting engine of
src/fan-controller.py (class FanController), together with proofs about it.

Fan speeds are hexadecimal strings such as "0x24", as in the Python source,
where they are parsed with int(s, 16) and re-formatted with f"0x{n:02x}".
Temperatures and times are integers (the source coerces sensor readings with
int(float(...)); times are seconds).
-/

namespace FanCtrl

/-- Value of one hexadecimal digit character; characters that are not hex
digits are out of scope for the configs the controller handles and map to 0
(Python's int(s, 16) would raise there). -/
def hexDigitVal (c : Char) : Nat :=
  if '0' ≤ c ∧ c ≤ '9' then c.toNat - '0'.toNat
  else if 'a' ≤ c ∧ c ≤ 'f' then c.toNat - 'a'.toNat + 10
  else if 'A' ≤ c ∧ c ≤ 'F' then c.toNat - 'A'.toNat + 10
  else 0

/-- Digit-list worker for hexadecimal rendering; the first argument is fuel
bounding the recursion depth (any fuel above the digit count is enough). -/
def toHexAux : Nat → Nat → List Char
  | 0, _ => []
  | fuel + 1, n =>
    if n < 16 then [Nat.digitChar n]
    else toHexAux fuel (n / 16) ++ [Nat.digitChar (n % 16)]

/-- Lowercase hexadecimal digit list of a natural number (most significant
first), as produced by Python's "%x" format. -/
def toHexCore (n : Nat) : List Char :=
  toHexAux (n + 1) n

/-- Left-pad a digit list with zeros to width 2, as "%02x" does. -/
def padTo2 (l : List Char) : List Char :=
  if 2 ≤ l.length then l else List.replicate (2 - l.length) '0' ++ l

/-- Embedding of Python f"0x\x7bn:02x\x7d": "0x" followed by the lowercase hex
digits of n, zero-padded to at least two digits. -/
def formatHex2 (n : Nat) : String :=
  ⟨'0' :: 'x' :: padTo2 (toHexCore n)⟩

/-- Strip an optional "0x"/"0X" prefix, as int(s, 16) accepts. -/
def hexChars : List Char → List Char
  | '0' :: 'x' :: rest => rest
  | '0' :: 'X' :: rest => rest
  | l => l

/-- Embedding of Python int(s, 16) on the well-formed hex strings the
controller manipulates. -/
def hexVal (s : String) : Nat :=
  (hexChars s.data).foldl (fun a c => 16 * a + hexDigitVal c) 0

/-- Parsing inverts formatting for single hex digits. -/
lemma hexDigitVal_digitChar (d : Nat) (h : d < 16) :
    hexDigitVal (Nat.digitChar d) = d := by
  interval_cases d <;> decide

/-- Folding the hex-parse step over the digits of n starting from accumulator
a yields a shifted by the digit count plus n, for any sufficient fuel. -/
lemma foldl_toHexAux : ∀ (fuel n : Nat), n < fuel → ∀ a : Nat,
    (toHexAux fuel n).foldl (fun a c => 16 * a + hexDigitVal c) a
      = a * 16 ^ (toHexAux fuel n).length + n := by
  intro fuel
  induction fuel with
  | zero => intro n h; omega
  | succ fuel ih =>
    intro n hn a
    rw [toHexAux]
    split
    · next h =>
      simp [List.foldl, hexDigitVal_digitChar n h]
      ring
    · next h =>
      have hdiv : n / 16 < n := Nat.div_lt_self (by omega) (by omega)
      have hfuel : n / 16 < fuel := by omega
      rw [List.foldl_append]
      rw [ih (n / 16) hfuel a]
      simp only [List.foldl]
      rw [hexDigitVal_digitChar (n % 16) (Nat.mod_lt n (by omega))]
      rw [List.length_append]
      simp [pow_succ]
      have hsplit : 16 * (a * 16 ^ (toHexAux fuel (n / 16)).length + n / 16) + n % 16
          = a * (16 ^ (toHexAux fuel (n / 16)).length * 16) + (16 * (n / 16) + n % 16) := by
        ring
      rw [hsplit, Nat.div_add_mod]

lemma foldl_toHexCore (n : Nat) (a : Nat) :
    (toHexCore n).foldl (fun a c => 16 * a + hexDigitVal c) a
      = a * 16 ^ (toHexCore n).length + n :=
  foldl_toHexAux (n + 1) n (by omega) a

lemma foldl_replicate_zero (k : Nat) (l : List Char) :
    (List.replicate k '0' ++ l).foldl (fun a c => 16 * a + hexDigitVal c) 0
      = l.foldl (fun a c => 16 * a + hexDigitVal c) 0 := by
  induction k with
  | zero => simp
  | succ k ih =>
    simp only [List.replicate_succ, List.cons_append, List.foldl]
    simpa [hexDigitVal] using ih

/-- Round trip: parsing the "0x%02x" rendering of n gives back n. -/
lemma hexVal_formatHex2 (n : Nat) : hexVal (formatHex2 n) = n := by
  unfold hexVal formatHex2 hexChars
  simp only
  unfold padTo2
  split
  · simpa using foldl_toHexCore n 0
  · rw [foldl_replicate_zero]
    simpa using foldl_toHexCore n 0

/-! ## Data model -/

/-- The load-state strings the controller produces: 'idle', 'moderate',
'high', 'emergency', 'error' and 'static'. -/
inductive LoadState
  | idle
  | moderate
  | high
  | emergency
  | error
  | static
deriving DecidableEq, Repr

/-- The state_priority dict of check_alerts and adjust_polling:
\x7b'idle': 0, 'moderate': 1, 'high': 2, 'emergency': 3, 'error': 2\x7d, looked
up with .get(s, 0), so 'static' falls to the default 0. -/
def state_priority : LoadState → Nat
  | .idle => 0
  | .moderate => 1
  | .high => 2
  | .emergency => 3
  | .error => 2
  | .static => 0

/-- max(load_states.values(), key=lambda s: state_priority.get(s, 0)) where
load_states is built with the cpu entry first and the peripheral entry
second: Python's max returns the first element of maximal key, so on a
priority tie the cpu zone's state wins. -/
def worst_state (cpu periph : LoadState) : LoadState :=
  if state_priority cpu < state_priority periph then periph else cpu

/-- config['thresholds'] (degrees C). -/
structure Thresholds where
  moderate : Int
  high : Int
  emergency : Int
  safety_floor : Int
deriving Repr, DecidableEq

/-- config['fan_speeds']: hex strings such as "0x24". -/
structure FanSpeeds where
  idle : String
  moderate : String
  high : String
  emergency : String
  error_safe : String
  safety_floor_speed : String
deriving Repr, DecidableEq

/-- config['alerts'] (seconds / counts). -/
structure AlertCfg where
  sustained_high_load : Int
  high_load_event_window : Int
  high_load_event_threshold : Nat
deriving Repr, DecidableEq

/-- config['polling'] (seconds). -/
structure PollingCfg where
  normal : Int
  high_load : Int
deriving Repr, DecidableEq

/-- config['static_peripheral']: .get('enabled', False) and
.get('speed', fan_speeds.idle); speed is optional with the idle speed as
default. -/
structure StaticPeripheral where
  enabled : Bool
  speed : Option String
deriving Repr, DecidableEq

/-- The slice of the YAML configuration the control engine reads. -/
structure Config where
  thresholds : Thresholds
  fan_speeds : FanSpeeds
  alerts : AlertCfg
  polling : PollingCfg
  static_peripheral : StaticPeripheral
deriving Repr, DecidableEq

/-! ## Speed decision, safety floor, actuation -/

/-- FanController.determine_fan_speed: temperature (None on read failure)
to (fan speed, load state). -/
def determine_fan_speed (cfg : Config) (temp : Option Int) : String × LoadState :=
  match temp with
  | none => (cfg.fan_speeds.error_safe, .error)
  | some t =>
    if cfg.thresholds.emergency ≤ t then (cfg.fan_speeds.emergency, .emergency)
    else if cfg.thresholds.high ≤ t then (cfg.fan_speeds.high, .high)
    else if cfg.thresholds.moderate ≤ t then (cfg.fan_speeds.moderate, .moderate)
    else (cfg.fan_speeds.idle, .idle)

/-- FanController.apply_speed_floor: parse both hex strings, take the numeric
max, re-format as f"0x\x7b...:02x\x7d". -/
def apply_speed_floor (speed_hex floor_hex : String) : String :=
  formatHex2 (max (hexVal speed_hex) (hexVal floor_hex))

/-- FanController.check_safety_floor: given the safety_floor threshold, the
current safety_override_active latch and all sensor readings, return
(floor active, new latch, alert emitted on this tick). An empty reading set
returns inactive with the latch untouched. -/
def check_safety_floor (thr : Int) (latch : Bool) :
    List Int → Bool × Bool × Bool
  | [] => (false, latch, false)
  | t :: ts =>
    let max_temp := ts.foldl max t
    if thr ≤ max_temp then (true, true, !latch)
    else (false, false, false)

/-- The per-zone speed decisions of one iteration of FanController.run
(before the safety floor): cpu from its zone temperature with error_safe
fallback, peripheral from the static override when enabled, else from its
temperature with the idle speed as no-sensor fallback. -/
def decide_zones (cfg : Config) (cpu_temp periph_temp : Option Int) :
    (String × LoadState) × (String × LoadState) :=
  let cpu :=
    match cpu_temp with
    | some t => determine_fan_speed cfg (some t)
    | none => (cfg.fan_speeds.error_safe, .error)
  let periph :=
    if cfg.static_peripheral.enabled then
      (cfg.static_peripheral.speed.getD cfg.fan_speeds.idle, LoadState.static)
    else
      match periph_temp with
      | some t => determine_fan_speed cfg (some t)
      | none => (cfg.fan_speeds.idle, .idle)
  (cpu, periph)

/-- The decided speeds after the safety-floor loop of FanController.run:
when the floor is active, every zone's speed is rewritten with
apply_speed_floor against fan_speeds.safety_floor_speed. -/
def zone_speeds (cfg : Config) (cpu_temp periph_temp : Option Int)
    (floor_active : Bool) : (String × LoadState) × (String × LoadState) :=
  let z := decide_zones cfg cpu_temp periph_temp
  if floor_active then
    ((apply_speed_floor z.1.1 cfg.fan_speeds.safety_floor_speed, z.1.2),
     (apply_speed_floor z.2.1 cfg.fan_speeds.safety_floor_speed, z.2.2))
  else z

/-- One tick's speed computation of FanController.run: check_safety_floor on
all readings decides whether the floor loop rewrites the decided speeds. -/
def tick_speeds (cfg : Config) (latch : Bool) (all_temps : List Int)
    (cpu_temp periph_temp : Option Int) :
    (String × LoadState) × (String × LoadState) :=
  zone_speeds cfg cpu_temp periph_temp
    (check_safety_floor cfg.thresholds.safety_floor latch all_temps).1

/-- The per-zone actuation step of FanController.run: issue a command only
when the computed speed string differs from the last applied one (initially
None); on success record the new speed, on failure keep the old record.
Returns (new last-applied record, whether a command was issued). -/
def actuate_zone (new_speed : String) (current : Option String)
    (success : Bool) : Option String × Bool :=
  if some new_speed ≠ current then
    (if success then some new_speed else current, true)
  else (current, false)

/-- FanController.adjust_polling: the next poll interval from the worst load
state. -/
def adjust_polling (cfg : Config) (cpu periph : LoadState) : Int :=
  let worst := worst_state cpu periph
  if worst = .high ∨ worst = .emergency then cfg.polling.high_load
  else cfg.polling.normal

/-! ## Alert/debounce engine -/

/-- Append to a deque with maxlen cap (high_load_events has
deque(maxlen=100)): on overflow the oldest entries are dropped from the
left. -/
def dequePush (cap : Nat) (q : List Int) (x : Int) : List Int :=
  let q2 := q ++ [x]
  if cap < q2.length then q2.drop (q2.length - cap) else q2

/-- The purge loop of check_alerts:
while high_load_events and high_load_events[0] < cutoff_time: popleft().
It pops from the front and stops at the first entry not older than the
cutoff. -/
def purge (cutoff : Int) : List Int → List Int
  | [] => []
  | t :: ts => if t < cutoff then purge cutoff ts else t :: ts

/-- The emergency-latch block of check_alerts: given the latch and the worst
state, return (new latch, alert emitted). -/
def emergency_step (latch : Bool) (worst : LoadState) : Bool × Bool :=
  if worst = .emergency then
    if latch then (true, false) else (true, true)
  else (false, false)

/-- The sustained-high-load block of check_alerts: given high_load_start,
high_load_alerted and the high_load_events deque, return
(new start, new alerted, new events, warning emitted). Entering
\x7bhigh, emergency\x7d records the start time and appends one event; leaving
resets start and the latch. -/
def sustained_step (cfg : Config) (start : Option Int) (alerted : Bool)
    (events : List Int) (worst : LoadState) (current_time now : Int) :
    Option Int × Bool × List Int × Bool :=
  if worst = .high ∨ worst = .emergency then
    match start with
    | none => (some current_time, alerted, dequePush 100 events now, false)
    | some s =>
      if cfg.alerts.sustained_high_load ≤ current_time - s ∧ alerted = false
      then (some s, true, events, true)
      else (some s, alerted, events, false)
  else (none, false, events, false)

/-- The event-frequency block of check_alerts: purge entries older than
now - high_load_event_window, then if the remaining count reaches
high_load_event_threshold emit one warning and clear the whole deque.
Returns (new events, warning emitted). -/
def window_step (cfg : Config) (events : List Int) (now : Int) :
    List Int × Bool :=
  let cutoff := now - cfg.alerts.high_load_event_window
  let purged := purge cutoff events
  if cfg.alerts.high_load_event_threshold ≤ purged.length then ([], true)
  else (purged, false)

/-- The alert-related runtime state of FanController. -/
structure AlertState where
  emergency_active : Bool
  high_load_start : Option Int
  high_load_alerted : Bool
  high_load_events : List Int
deriving Repr, DecidableEq

/-- The alerts one call of check_alerts may emit. -/
structure AlertOut where
  emergency_alert : Bool
  sustained_alert : Bool
  window_alert : Bool
deriving Repr, DecidableEq

/-- FanController.check_alerts: current_time is time.time() and now is
datetime.now(), sampled at the top of the call. -/
def check_alerts (cfg : Config) (st : AlertState) (cpu periph : LoadState)
    (current_time now : Int) : AlertState × AlertOut :=
  let worst := worst_state cpu periph
  let em := emergency_step st.emergency_active worst
  let sus := sustained_step cfg st.high_load_start st.high_load_alerted
    st.high_load_events worst current_time now
  let win := window_step cfg sus.2.2.1 now
  (⟨em.1, sus.1, sus.2.1, win.1⟩, ⟨em.2, sus.2.2.2, win.2⟩)

/-- The inputs of one tick, as seen by check_alerts: the two zone load
states and the two clock samples. -/
structure TickIn where
  cpu : LoadState
  peripheral : LoadState
  current_time : Int
  now : Int
deriving Repr, DecidableEq

/-- Iterate check_alerts over a list of ticks, collecting the emitted
alerts. -/
def alerts_run (cfg : Config) (st : AlertState) :
    List TickIn → AlertState × List AlertOut
  | [] => (st, [])
  | i :: is =>
    let step := check_alerts cfg st i.cpu i.peripheral i.current_time i.now
    let rest := alerts_run cfg step.1 is
    (rest.1, step.2 :: rest.2)

/-- Number of emergency alerts in a list of tick outputs. -/
def emCount (outs : List AlertOut) : Nat :=
  (outs.filter (·.emergency_alert)).length

/-- Number of sustained-high-load warnings in a list of tick outputs. -/
def susCount (outs : List AlertOut) : Nat :=
  (outs.filter (·.sustained_alert)).length

/-! ## Concrete configurations used in witnesses and counterexamples -/

/-- A representative configuration in the shape of config.yaml.example:
ordered thresholds, distinct hex duty values, static peripheral disabled. -/
def exCfg : Config :=
  { thresholds := { moderate := 50, high := 75, emergency := 90, safety_floor := 95 }
    fan_speeds := { idle := "0x10", moderate := "0x24", high := "0x50",
                    emergency := "0x64", error_safe := "0x40",
                    safety_floor_speed := "0x3c" }
    alerts := { sustained_high_load := 300, high_load_event_window := 60,
                high_load_event_threshold := 3 }
    polling := { normal := 30, high_load := 10 }
    static_peripheral := { enabled := false, speed := some "0x20" } }

/-- Like exCfg but with a high_load_event_threshold above the deque capacity
of 100. -/
def exCfg9 : Config :=
  { exCfg with alerts := { sustained_high_load := 300,
                           high_load_event_window := 60,
                           high_load_event_threshold := 200 } }

/-- Like exCfg but with a single-digit idle duty "0x4", whose safety-floor
rewrite re-spells it as "0x04". -/
def exCfg10 : Config :=
  { exCfg with fan_speeds := { idle := "0x4", moderate := "0x24", high := "0x50",
                               emergency := "0x64", error_safe := "0x40",
                               safety_floor_speed := "0x02" } }

/-! ## Claim theorems -/

/-- C4: determine_fan_speed is a pure case analysis on the temperature with
inclusive lower bounds: an absent reading maps to (error_safe, Error);
otherwise temp >= emergency maps to the emergency band, else temp >= high to
the high band, else temp >= moderate to the moderate band, else to idle; and
a temperature exactly at a band boundary maps to the higher band. -/
theorem C4_determine_fan_speed_cases (cfg : Config) (t : Int) :
    determine_fan_speed cfg none = (cfg.fan_speeds.error_safe, .error) ∧
    (cfg.thresholds.emergency ≤ t →
      determine_fan_speed cfg (some t) = (cfg.fan_speeds.emergency, .emergency)) ∧
    (t < cfg.thresholds.emergency → cfg.thresholds.high ≤ t →
      determine_fan_speed cfg (some t) = (cfg.fan_speeds.high, .high)) ∧
    (t < cfg.thresholds.emergency → t < cfg.thresholds.high →
      cfg.thresholds.moderate ≤ t →
      determine_fan_speed cfg (some t) = (cfg.fan_speeds.moderate, .moderate)) ∧
    (t < cfg.thresholds.emergency → t < cfg.thresholds.high →
      t < cfg.thresholds.moderate →
      determine_fan_speed cfg (some t) = (cfg.fan_speeds.idle, .idle)) ∧
    (cfg.thresholds.moderate < cfg.thresholds.high →
      cfg.thresholds.high < cfg.thresholds.emergency →
      determine_fan_speed cfg (some cfg.thresholds.high)
        = (cfg.fan_speeds.high, .high) ∧
      determine_fan_speed cfg (some cfg.thresholds.emergency)
        = (cfg.fan_speeds.emergency, .emergency) ∧
      determine_fan_speed cfg (some cfg.thresholds.moderate)
        = (cfg.fan_speeds.moderate, .moderate)) := by
  refine ⟨rfl, ?_, ?_, ?_, ?_, ?_⟩
  · intro h
    simp only [determine_fan_speed]
    rw [if_pos h]
  · intro h1 h2
    simp only [determine_fan_speed]
    rw [if_neg (by omega), if_pos h2]
  · intro h1 h2 h3
    simp only [determine_fan_speed]
    rw [if_neg (by omega), if_neg (by omega), if_pos h3]
  · intro h1 h2 h3
    simp only [determine_fan_speed]
    rw [if_neg (by omega), if_neg (by omega), if_neg (by omega)]
  · intro h1 h2
    refine ⟨?_, ?_, ?_⟩
    · simp only [determine_fan_speed]
      rw [if_neg (by omega), if_pos (by omega)]
    · simp only [determine_fan_speed]
      rw [if_pos (by omega)]
    · simp only [determine_fan_speed]
      rw [if_neg (by omega), if_neg (by omega), if_pos (by omega)]

/-- Witness for C4 at the example configuration: the boundary readings 75
(the high threshold) and 90 (the emergency threshold) map to the higher
bands. -/
theorem C4_witness :
    determine_fan_speed exCfg (some exCfg.thresholds.high)
      = (exCfg.fan_speeds.high, .high) ∧
    determine_fan_speed exCfg (some exCfg.thresholds.emergency)
      = (exCfg.fan_speeds.emergency, .emergency) := by
  have h := (C4_determine_fan_speed_cases exCfg 0).2.2.2.2.2
    (by decide) (by decide)
  exact ⟨h.1, h.2.1⟩

/-- C3 counterexample: with cpu zone in Error state and peripheral zone in
High state — a mix containing a High zone — the priority tie (both weigh 2)
makes Python's max keep the first entry, Error, so adjust_polling returns the
normal interval, not the high-load interval the claim demands. -/
theorem C3_counterexample :
    adjust_polling exCfg .error .high = exCfg.polling.normal ∧
    exCfg.polling.normal ≠ exCfg.polling.high_load := by
  constructor
  · rfl
  · decide

/-- C3 amended: the interval is the high-load one exactly when the worst
state computed by the code (priority max over the two zone states, with the
cpu entry winning ties) is High or Emergency; a mix containing a High or
Emergency zone yields the high-load interval in every case except the tie
cpu = Error, peripheral = High, where the normal interval is returned. -/
theorem C3_adjust_polling_amended (cfg : Config) (cpu periph : LoadState) :
    (worst_state cpu periph = .high ∨ worst_state cpu periph = .emergency →
      adjust_polling cfg cpu periph = cfg.polling.high_load) ∧
    (worst_state cpu periph ≠ .high → worst_state cpu periph ≠ .emergency →
      adjust_polling cfg cpu periph = cfg.polling.normal) ∧
    ((cpu = .high ∨ cpu = .emergency ∨ periph = .high ∨ periph = .emergency) →
      ¬(cpu = .error ∧ periph = .high) →
      adjust_polling cfg cpu periph = cfg.polling.high_load) := by
  refine ⟨?_, ?_, ?_⟩
  · intro h
    simp only [adjust_polling]
    rw [if_pos h]
  · intro h1 h2
    simp only [adjust_polling]
    rw [if_neg (by tauto)]
  · intro h hne
    have hw : worst_state cpu periph = .high ∨ worst_state cpu periph = .emergency := by
      cases cpu <;> cases periph <;> simp_all [worst_state, state_priority]
    simp only [adjust_polling]
    rw [if_pos hw]

/-- Witness for C3 at concrete states: an Idle cpu with a High peripheral
gives the high-load interval, and a tie-free Error cpu with an Idle
peripheral gives the normal interval. -/
theorem C3_witness :
    adjust_polling exCfg .idle .high = exCfg.polling.high_load ∧
    adjust_polling exCfg .error .idle = exCfg.polling.normal := by
  constructor
  · exact (C3_adjust_polling_amended exCfg .idle .high).1 (by decide)
  · exact (C3_adjust_polling_amended exCfg .error .idle).2.1 (by decide) (by decide)

/-- C2 counterexample: with the static override disabled and no readable
peripheral sensor, the peripheral zone's decision is (idle speed, Idle) —
not the (error_safe, Error) the claim asserts for every zone. -/
theorem C2_counterexample :
    exCfg.static_peripheral.enabled = false ∧
    (decide_zones exCfg (some 80) none).2 = (exCfg.fan_speeds.idle, .idle) ∧
    (decide_zones exCfg (some 80) none).2 ≠ (exCfg.fan_speeds.error_safe, .error) := by
  refine ⟨rfl, rfl, ?_⟩
  decide

/-- C2 amended: only the cpu zone falls back to (error_safe, Error) when none
of its sensors could be read; the peripheral zone with no static override and
no readable sensors falls back to (idle speed, Idle). Both fallback speeds
participate normally in the safety-floor step. -/
theorem C2_fallback_amended (cfg : Config) (cpu_temp periph_temp : Option Int)
    (hst : cfg.static_peripheral.enabled = false) :
    (decide_zones cfg none periph_temp).1 = (cfg.fan_speeds.error_safe, .error) ∧
    (decide_zones cfg cpu_temp none).2 = (cfg.fan_speeds.idle, .idle) ∧
    (zone_speeds cfg none none true).1.1
      = apply_speed_floor cfg.fan_speeds.error_safe cfg.fan_speeds.safety_floor_speed ∧
    (zone_speeds cfg none none true).2.1
      = apply_speed_floor cfg.fan_speeds.idle cfg.fan_speeds.safety_floor_speed := by
  refine ⟨rfl, ?_, ?_, ?_⟩
  · simp [decide_zones, hst]
  · simp [zone_speeds, decide_zones, hst]
  · simp [zone_speeds, decide_zones, hst]

/-- Witness for C2 at the example configuration, whose static override is
disabled. -/
theorem C2_witness :
    (decide_zones exCfg none none).1 = (exCfg.fan_speeds.error_safe, .error) ∧
    (decide_zones exCfg none none).2 = (exCfg.fan_speeds.idle, .idle) := by
  have h := C2_fallback_amended exCfg none none rfl
  exact ⟨h.1, h.2.1⟩

/-- Parsing the safety-floor rewrite of a speed gives the numeric max of the
parsed operands. -/
lemma hexVal_apply_speed_floor (s f : String) :
    hexVal (apply_speed_floor s f) = max (hexVal s) (hexVal f) :=
  hexVal_formatHex2 _

/-- The accumulator and every list element are below the max fold used by
check_safety_floor. -/
lemma le_foldl_max (l : List Int) (a : Int) :
    a ≤ l.foldl max a ∧ ∀ x ∈ l, x ≤ l.foldl max a := by
  induction l generalizing a with
  | nil => simp
  | cons b bs ih =>
    simp only [List.foldl_cons]
    refine ⟨le_trans (le_max_left a b) (ih (max a b)).1, ?_⟩
    intro x hx
    rcases List.mem_cons.mp hx with h | h
    · rw [h]
      exact le_trans (le_max_right a b) (ih (max a b)).1
    · exact (ih (max a b)).2 x h

/-- C1: whenever some sensor reading reaches the safety_floor threshold, the
floor check reports active and every zone's final speed of the tick parses to
the numeric max of its decided speed and the safety-floor speed, so it is
never numerically below either operand; this covers the peripheral zone even
when it is pinned to Static by the static-peripheral override. -/
theorem C1_safety_floor_wins (cfg : Config) (latch : Bool)
    (all_temps : List Int) (cpu_temp periph_temp : Option Int)
    (h : ∃ t ∈ all_temps, cfg.thresholds.safety_floor ≤ t) :
    (check_safety_floor cfg.thresholds.safety_floor latch all_temps).1 = true ∧
    hexVal (tick_speeds cfg latch all_temps cpu_temp periph_temp).1.1
      = max (hexVal (decide_zones cfg cpu_temp periph_temp).1.1)
          (hexVal cfg.fan_speeds.safety_floor_speed) ∧
    hexVal (tick_speeds cfg latch all_temps cpu_temp periph_temp).2.1
      = max (hexVal (decide_zones cfg cpu_temp periph_temp).2.1)
          (hexVal cfg.fan_speeds.safety_floor_speed) ∧
    hexVal (decide_zones cfg cpu_temp periph_temp).1.1
      ≤ hexVal (tick_speeds cfg latch all_temps cpu_temp periph_temp).1.1 ∧
    hexVal cfg.fan_speeds.safety_floor_speed
      ≤ hexVal (tick_speeds cfg latch all_temps cpu_temp periph_temp).1.1 ∧
    hexVal (decide_zones cfg cpu_temp periph_temp).2.1
      ≤ hexVal (tick_speeds cfg latch all_temps cpu_temp periph_temp).2.1 ∧
    hexVal cfg.fan_speeds.safety_floor_speed
      ≤ hexVal (tick_speeds cfg latch all_temps cpu_temp periph_temp).2.1 ∧
    (cfg.static_peripheral.enabled = true →
      (decide_zones cfg cpu_temp periph_temp).2.2 = .static ∧
      (tick_speeds cfg latch all_temps cpu_temp periph_temp).2.2 = .static) := by
  obtain ⟨t, htmem, hle⟩ := h
  have hactive : (check_safety_floor cfg.thresholds.safety_floor latch all_temps).1
      = true := by
    cases all_temps with
    | nil => simp at htmem
    | cons t0 ts =>
      have hmax : cfg.thresholds.safety_floor ≤ ts.foldl max t0 := by
        rcases List.mem_cons.mp htmem with h0 | h0
        · subst h0
          exact le_trans hle (le_foldl_max ts t).1
        · exact le_trans hle ((le_foldl_max ts t0).2 t h0)
      simp only [check_safety_floor]
      rw [if_pos hmax]
  have hts : tick_speeds cfg latch all_temps cpu_temp periph_temp
      = zone_speeds cfg cpu_temp periph_temp true := by
    simp only [tick_speeds, hactive]
  rw [hts]
  have hz1 : (zone_speeds cfg cpu_temp periph_temp true).1.1
      = apply_speed_floor (decide_zones cfg cpu_temp periph_temp).1.1
          cfg.fan_speeds.safety_floor_speed := rfl
  have hz2 : (zone_speeds cfg cpu_temp periph_temp true).2.1
      = apply_speed_floor (decide_zones cfg cpu_temp periph_temp).2.1
          cfg.fan_speeds.safety_floor_speed := rfl
  rw [hz1, hz2, hexVal_apply_speed_floor, hexVal_apply_speed_floor]
  refine ⟨hactive, rfl, rfl, le_max_left _ _, le_max_right _ _,
    le_max_left _ _, le_max_right _ _, ?_⟩
  intro hst
  constructor
  · simp [decide_zones, hst]
  · simp [zone_speeds, decide_zones, hst]

/-- Witness for C1: a 96-degree reading against the 95-degree safety floor of
the example configuration activates the floor, and the idle-decided cpu zone
rises to the floor duty. -/
theorem C1_witness :
    (check_safety_floor exCfg.thresholds.safety_floor false [96, 40]).1 = true ∧
    hexVal (tick_speeds exCfg false [96, 40] (some 40) (some 40)).1.1
      = max (hexVal (decide_zones exCfg (some 40) (some 40)).1.1)
          (hexVal exCfg.fan_speeds.safety_floor_speed) := by
  have h := C1_safety_floor_wins exCfg false [96, 40] (some 40) (some 40)
    ⟨96, by simp, by decide⟩
  exact ⟨h.1, h.2.1⟩

/-- C8: a fan command is issued exactly when the computed speed string
differs from the last-applied record; success updates the record to the
computed value, failure leaves the record unchanged, and on the next tick the
same computed speed still differs from the record, so the command is
re-issued. -/
theorem C8_actuation_diff (new_speed : String) (current : Option String)
    (success : Bool) :
    ((actuate_zone new_speed current success).2 = true ↔ some new_speed ≠ current) ∧
    (some new_speed ≠ current → success = true →
      (actuate_zone new_speed current success).1 = some new_speed) ∧
    (some new_speed ≠ current → success = false →
      (actuate_zone new_speed current success).1 = current) ∧
    (some new_speed = current → actuate_zone new_speed current success = (current, false)) ∧
    (some new_speed ≠ current →
      (actuate_zone new_speed (actuate_zone new_speed current false).1 success).2
        = true) := by
  by_cases h : some new_speed = current
  · refine ⟨?_, ?_, ?_, ?_, ?_⟩ <;> simp [actuate_zone, h]
  · refine ⟨?_, ?_, ?_, ?_, ?_⟩ <;> cases success <;> simp [actuate_zone, h]

/-- Witness for C8: a failed command for "0x50" against a recorded "0x24"
leaves the record at "0x24", and the retry next tick issues the command
again. -/
theorem C8_witness :
    (actuate_zone "0x50" (some "0x24") false).1 = some "0x24" ∧
    (actuate_zone "0x50" (actuate_zone "0x50" (some "0x24") false).1 true).2
      = true := by
  have h := C8_actuation_diff "0x50" (some "0x24") false
  have h2 := C8_actuation_diff "0x50" (some "0x24") true
  exact ⟨h.2.2.1 (by decide) rfl, h2.2.2.2.2 (by decide)⟩

/-- C10: the actuation gate compares speed strings, not duties: the
safety-floor rewrite re-formats the single-digit idle duty "0x4" of exCfg10
as the zero-padded "0x04", which parses to the same duty but is a different
string, so with "0x4" last applied the loop issues a command even though the
duty is unchanged. -/
theorem C10_string_diff_not_numeric :
    hexVal "0x04" = hexVal "0x4" ∧
    "0x04" ≠ "0x4" ∧
    (zone_speeds exCfg10 (some 30) (some 30) false).1.1 = "0x4" ∧
    (zone_speeds exCfg10 (some 30) (some 30) true).1.1 = "0x04" ∧
    (actuate_zone "0x04" (some "0x4") true).2 = true ∧
    (actuate_zone "0x04" (some "0x4") false).2 = true := by
  refine ⟨by decide, by decide, rfl, by decide, by decide, by decide⟩

/-! ## Helper lemmas for the alert engine -/

lemma check_alerts_em_active (cfg : Config) (st : AlertState)
    (c p : LoadState) (t n : Int) :
    (check_alerts cfg st c p t n).1.emergency_active
      = (emergency_step st.emergency_active (worst_state c p)).1 := rfl

lemma check_alerts_em_alert (cfg : Config) (st : AlertState)
    (c p : LoadState) (t n : Int) :
    (check_alerts cfg st c p t n).2.emergency_alert
      = (emergency_step st.emergency_active (worst_state c p)).2 := rfl

lemma check_alerts_start (cfg : Config) (st : AlertState)
    (c p : LoadState) (t n : Int) :
    (check_alerts cfg st c p t n).1.high_load_start
      = (sustained_step cfg st.high_load_start st.high_load_alerted
          st.high_load_events (worst_state c p) t n).1 := rfl

lemma check_alerts_alerted (cfg : Config) (st : AlertState)
    (c p : LoadState) (t n : Int) :
    (check_alerts cfg st c p t n).1.high_load_alerted
      = (sustained_step cfg st.high_load_start st.high_load_alerted
          st.high_load_events (worst_state c p) t n).2.1 := rfl

lemma check_alerts_sus_alert (cfg : Config) (st : AlertState)
    (c p : LoadState) (t n : Int) :
    (check_alerts cfg st c p t n).2.sustained_alert
      = (sustained_step cfg st.high_load_start st.high_load_alerted
          st.high_load_events (worst_state c p) t n).2.2.2 := rfl

lemma check_alerts_events (cfg : Config) (st : AlertState)
    (c p : LoadState) (t n : Int) :
    (check_alerts cfg st c p t n).1.high_load_events
      = (window_step cfg
          (sustained_step cfg st.high_load_start st.high_load_alerted
            st.high_load_events (worst_state c p) t n).2.2.1 n).1 := rfl

lemma check_alerts_win_alert (cfg : Config) (st : AlertState)
    (c p : LoadState) (t n : Int) :
    (check_alerts cfg st c p t n).2.window_alert
      = (window_step cfg
          (sustained_step cfg st.high_load_start st.high_load_alerted
            st.high_load_events (worst_state c p) t n).2.2.1 n).2 := rfl

lemma emergency_step_em (latch : Bool) :
    emergency_step latch .emergency = (true, !latch) := by
  cases latch <;> rfl

lemma emergency_step_ne (latch : Bool) (w : LoadState) (h : w ≠ .emergency) :
    emergency_step latch w = (false, false) := by
  simp [emergency_step, h]

lemma emCount_cons (o : AlertOut) (outs : List AlertOut) :
    emCount (o :: outs) = (if o.emergency_alert then 1 else 0) + emCount outs := by
  simp only [emCount, List.filter_cons]
  split
  · simp
    omega
  · simp

lemma susCount_cons (o : AlertOut) (outs : List AlertOut) :
    susCount (o :: outs) = (if o.sustained_alert then 1 else 0) + susCount outs := by
  simp only [susCount, List.filter_cons]
  split
  · simp
    omega
  · simp

lemma alerts_run_cons (cfg : Config) (st : AlertState) (i : TickIn)
    (is : List TickIn) :
    alerts_run cfg st (i :: is)
      = ((alerts_run cfg (check_alerts cfg st i.cpu i.peripheral i.current_time i.now).1 is).1,
         (check_alerts cfg st i.cpu i.peripheral i.current_time i.now).2
           :: (alerts_run cfg (check_alerts cfg st i.cpu i.peripheral i.current_time i.now).1 is).2) :=
  rfl

/-- While the emergency latch is set and every tick's worst state stays
Emergency, no further emergency alert is emitted and the latch stays set. -/
lemma emCount_latched (cfg : Config) : ∀ (is : List TickIn) (st : AlertState),
    st.emergency_active = true →
    (∀ i ∈ is, worst_state i.cpu i.peripheral = .emergency) →
    emCount (alerts_run cfg st is).2 = 0 := by
  intro is
  induction is with
  | nil =>
    intro st _ _
    simp [alerts_run, emCount]
  | cons i is ih =>
    intro st hlatch hall
    have hw := hall i (List.mem_cons_self i is)
    rw [alerts_run_cons, emCount_cons]
    have halert : (check_alerts cfg st i.cpu i.peripheral i.current_time i.now).2.emergency_alert
        = false := by
      rw [check_alerts_em_alert, hw, emergency_step_em, hlatch]
      rfl
    have hactive : (check_alerts cfg st i.cpu i.peripheral i.current_time i.now).1.emergency_active
        = true := by
      rw [check_alerts_em_active, hw, emergency_step_em]
    rw [halert, ih _ hactive (fun j hj => hall j (List.mem_cons_of_mem i hj))]
    simp

/-! ## C5: emergency alert idempotence -/

/-- C5: over a nonempty run of ticks whose worst state is Emergency
throughout, starting with a clear latch, exactly one emergency alert is
emitted; with the latch already set no alert is emitted at all; a tick whose
worst state is not Emergency clears the latch silently, and a tick entering
Emergency on a clear latch emits the alert and sets the latch. -/
theorem C5_emergency_alert_once (cfg : Config) (st : AlertState)
    (is : List TickIn) :
    (st.emergency_active = false → is ≠ [] →
      (∀ i ∈ is, worst_state i.cpu i.peripheral = .emergency) →
      emCount (alerts_run cfg st is).2 = 1) ∧
    (st.emergency_active = true →
      (∀ i ∈ is, worst_state i.cpu i.peripheral = .emergency) →
      emCount (alerts_run cfg st is).2 = 0) ∧
    (∀ c p t n, worst_state c p ≠ .emergency →
      (check_alerts cfg st c p t n).1.emergency_active = false ∧
      (check_alerts cfg st c p t n).2.emergency_alert = false) ∧
    (∀ c p t n, worst_state c p = .emergency → st.emergency_active = false →
      (check_alerts cfg st c p t n).1.emergency_active = true ∧
      (check_alerts cfg st c p t n).2.emergency_alert = true) := by
  refine ⟨?_, ?_, ?_, ?_⟩
  · intro hlatch hne hall
    cases is with
    | nil => exact absurd rfl hne
    | cons i is =>
      have hw := hall i (List.mem_cons_self i is)
      rw [alerts_run_cons, emCount_cons]
      have halert : (check_alerts cfg st i.cpu i.peripheral i.current_time i.now).2.emergency_alert
          = true := by
        rw [check_alerts_em_alert, hw, emergency_step_em, hlatch]
        rfl
      have hactive : (check_alerts cfg st i.cpu i.peripheral i.current_time i.now).1.emergency_active
          = true := by
        rw [check_alerts_em_active, hw, emergency_step_em]
      rw [halert, if_pos rfl,
        emCount_latched cfg is _ hactive (fun j hj => hall j (List.mem_cons_of_mem i hj))]
  · intro hlatch hall
    exact emCount_latched cfg is st hlatch hall
  · intro c p t n hw
    constructor
    · rw [check_alerts_em_active, emergency_step_ne _ _ hw]
    · rw [check_alerts_em_alert, emergency_step_ne _ _ hw]
  · intro c p t n hw hlatch
    constructor
    · rw [check_alerts_em_active, hw, emergency_step_em]
    · rw [check_alerts_em_alert, hw, emergency_step_em, hlatch]
      rfl

/-- Witness for C5: three consecutive all-Emergency ticks from a clear latch
emit exactly one emergency alert. -/
theorem C5_witness :
    emCount (alerts_run exCfg ⟨false, none, false, []⟩
      [⟨.emergency, .idle, 0, 0⟩, ⟨.emergency, .idle, 1, 1⟩,
       ⟨.emergency, .idle, 2, 2⟩]).2 = 1 :=
  (C5_emergency_alert_once exCfg ⟨false, none, false, []⟩
    [⟨.emergency, .idle, 0, 0⟩, ⟨.emergency, .idle, 1, 1⟩,
     ⟨.emergency, .idle, 2, 2⟩]).1 rfl (by decide) (by decide)

/-! ## C6: sustained-high-load timer -/

lemma sustained_step_enter (cfg : Config) (alerted : Bool) (events : List Int)
    (w : LoadState) (t n : Int) (hw : w = .high ∨ w = .emergency) :
    sustained_step cfg none alerted events w t n
      = (some t, alerted, dequePush 100 events n, false) := by
  unfold sustained_step
  rw [if_pos hw]

lemma sustained_step_exit (cfg : Config) (start : Option Int) (alerted : Bool)
    (events : List Int) (w : LoadState) (t n : Int)
    (hw : ¬(w = .high ∨ w = .emergency)) :
    sustained_step cfg start alerted events w t n = (none, false, events, false) := by
  unfold sustained_step
  rw [if_neg hw]

/-- Inside the high/emergency set with the sustained latch already set, no
warning is emitted and the latch stays set. -/
lemma sustained_step_alerted_true (cfg : Config) (start : Option Int)
    (events : List Int) (w : LoadState) (t n : Int)
    (hw : w = .high ∨ w = .emergency) :
    (sustained_step cfg start true events w t n).2.1 = true ∧
    (sustained_step cfg start true events w t n).2.2.2 = false := by
  unfold sustained_step
  rw [if_pos hw]
  cases start with
  | none => exact ⟨rfl, rfl⟩
  | some s =>
    dsimp only
    rw [if_neg (by simp)]
    exact ⟨rfl, rfl⟩

/-- Inside the set with the latch clear, either a warning is emitted and the
latch sets, or neither happens. -/
lemma sustained_step_alerted_false (cfg : Config) (start : Option Int)
    (events : List Int) (w : LoadState) (t n : Int)
    (hw : w = .high ∨ w = .emergency) :
    ((sustained_step cfg start false events w t n).2.1 = true ∧
     (sustained_step cfg start false events w t n).2.2.2 = true) ∨
    ((sustained_step cfg start false events w t n).2.1 = false ∧
     (sustained_step cfg start false events w t n).2.2.2 = false) := by
  unfold sustained_step
  rw [if_pos hw]
  cases start with
  | none => exact Or.inr ⟨rfl, rfl⟩
  | some s =>
    dsimp only
    by_cases hd : cfg.alerts.sustained_high_load ≤ t - s
    · exact Or.inl (by rw [if_pos ⟨hd, rfl⟩]; exact ⟨rfl, rfl⟩)
    · exact Or.inr (by rw [if_neg (by tauto)]; exact ⟨rfl, rfl⟩)

/-- While the sustained latch is set and the worst state stays in the
high/emergency set, no sustained warning is emitted. -/
lemma susCount_latched (cfg : Config) : ∀ (is : List TickIn) (st : AlertState),
    st.high_load_alerted = true →
    (∀ i ∈ is, worst_state i.cpu i.peripheral = .high ∨
      worst_state i.cpu i.peripheral = .emergency) →
    susCount (alerts_run cfg st is).2 = 0 := by
  intro is
  induction is with
  | nil =>
    intro st _ _
    simp [alerts_run, susCount]
  | cons i is ih =>
    intro st hlatch hall
    have hw := hall i (List.mem_cons_self i is)
    rw [alerts_run_cons, susCount_cons]
    have hstep := sustained_step_alerted_true cfg st.high_load_start
      st.high_load_events _ i.current_time i.now hw
    have halert : (check_alerts cfg st i.cpu i.peripheral i.current_time i.now).2.sustained_alert
        = false := by
      rw [check_alerts_sus_alert, hlatch]
      exact hstep.2
    have hactive : (check_alerts cfg st i.cpu i.peripheral i.current_time i.now).1.high_load_alerted
        = true := by
      rw [check_alerts_alerted, hlatch]
      exact hstep.1
    rw [halert, ih _ hactive (fun j hj => hall j (List.mem_cons_of_mem i hj))]
    simp

/-- Over a run of ticks that stays in the high/emergency set, starting with
the sustained latch clear, at most one sustained warning is emitted. -/
lemma susCount_le_one (cfg : Config) : ∀ (is : List TickIn) (st : AlertState),
    st.high_load_alerted = false →
    (∀ i ∈ is, worst_state i.cpu i.peripheral = .high ∨
      worst_state i.cpu i.peripheral = .emergency) →
    susCount (alerts_run cfg st is).2 ≤ 1 := by
  intro is
  induction is with
  | nil =>
    intro st _ _
    simp [alerts_run, susCount]
  | cons i is ih =>
    intro st hlatch hall
    have hw := hall i (List.mem_cons_self i is)
    rw [alerts_run_cons, susCount_cons]
    rcases sustained_step_alerted_false cfg st.high_load_start
        st.high_load_events _ i.current_time i.now hw with ⟨ha, he⟩ | ⟨ha, he⟩
    · have halert : (check_alerts cfg st i.cpu i.peripheral i.current_time i.now).2.sustained_alert
          = true := by
        rw [check_alerts_sus_alert, hlatch]
        exact he
      have hactive : (check_alerts cfg st i.cpu i.peripheral i.current_time i.now).1.high_load_alerted
          = true := by
        rw [check_alerts_alerted, hlatch]
        exact ha
      rw [halert,
        susCount_latched cfg is _ hactive (fun j hj => hall j (List.mem_cons_of_mem i hj))]
      simp
    · have halert : (check_alerts cfg st i.cpu i.peripheral i.current_time i.now).2.sustained_alert
          = false := by
        rw [check_alerts_sus_alert, hlatch]
        exact he
      have hactive : (check_alerts cfg st i.cpu i.peripheral i.current_time i.now).1.high_load_alerted
          = false := by
        rw [check_alerts_alerted, hlatch]
        exact ha
      rw [halert]
      have := ih _ hactive (fun j hj => hall j (List.mem_cons_of_mem i hj))
      simp
      omega

/-- The scenario of the claim: worst state High for 5 ticks (times 0..4),
Idle for one tick (time 5), then High again at time 6. -/
def scenarioC6 : List TickIn :=
  [⟨.high, .idle, 0, 0⟩, ⟨.high, .idle, 1, 1⟩, ⟨.high, .idle, 2, 2⟩,
   ⟨.high, .idle, 3, 3⟩, ⟨.high, .idle, 4, 4⟩, ⟨.idle, .idle, 5, 5⟩,
   ⟨.high, .idle, 6, 6⟩]

/-- C6: the first tick the worst state is in \x7bHigh, Emergency\x7d with no
recorded start time records the current time and appends one event to the
event window; any tick outside the set resets both the start time and the
sustained latch; at most one sustained warning is emitted per uninterrupted
in-set run; and on the concrete High-5, Idle-1, High-1 scenario the recorded
start after the last tick is the second run's first time, 6, not 0. -/
theorem C6_sustained_timer_reset (cfg : Config) (st : AlertState) :
    (∀ c p t n, (worst_state c p = .high ∨ worst_state c p = .emergency) →
      st.high_load_start = none →
      (check_alerts cfg st c p t n).1.high_load_start = some t ∧
      sustained_step cfg none st.high_load_alerted st.high_load_events
          (worst_state c p) t n
        = (some t, st.high_load_alerted, dequePush 100 st.high_load_events n, false)) ∧
    (∀ c p t n, ¬(worst_state c p = .high ∨ worst_state c p = .emergency) →
      (check_alerts cfg st c p t n).1.high_load_start = none ∧
      (check_alerts cfg st c p t n).1.high_load_alerted = false ∧
      (check_alerts cfg st c p t n).2.sustained_alert = false) ∧
    (∀ is : List TickIn,
      (∀ i ∈ is, worst_state i.cpu i.peripheral = .high ∨
        worst_state i.cpu i.peripheral = .emergency) →
      st.high_load_alerted = false →
      susCount (alerts_run cfg st is).2 ≤ 1) ∧
    (alerts_run exCfg ⟨false, none, false, []⟩ scenarioC6).1.high_load_start
      = some 6 := by
  refine ⟨?_, ?_, ?_, by decide⟩
  · intro c p t n hw hstart
    have hstep := sustained_step_enter cfg st.high_load_alerted
      st.high_load_events _ t n hw
    constructor
    · rw [check_alerts_start, hstart, hstep]
    · exact hstep
  · intro c p t n hw
    have hstep := sustained_step_exit cfg st.high_load_start st.high_load_alerted
      st.high_load_events _ t n hw
    refine ⟨?_, ?_, ?_⟩
    · rw [check_alerts_start, hstep]
    · rw [check_alerts_alerted, hstep]
    · rw [check_alerts_sus_alert, hstep]
  · intro is hall hlatch
    exact susCount_le_one cfg is st hlatch hall

/-- Witness for C6: a first High tick from the initial state records its
time.  -/
theorem C6_witness :
    (check_alerts exCfg ⟨false, none, false, []⟩ .high .idle 7 8).1.high_load_start
      = some 7 :=
  ((C6_sustained_timer_reset exCfg ⟨false, none, false, []⟩).1 .high .idle 7 8
    (by decide) rfl).1

/-! ## C7: event-frequency window -/

/-- For a chronologically ordered deque, the purge loop keeps exactly the
entries not older than the cutoff. -/
lemma purge_sorted (cutoff : Int) : ∀ l : List Int,
    List.Pairwise (· ≤ ·) l →
    (∀ t ∈ purge cutoff l, cutoff ≤ t) ∧
    (∀ t ∈ l, cutoff ≤ t → t ∈ purge cutoff l) := by
  intro l
  induction l with
  | nil => simp [purge]
  | cons a as ih =>
    intro hp
    rw [List.pairwise_cons] at hp
    by_cases ha : a < cutoff
    · rw [purge, if_pos ha]
      refine ⟨(ih hp.2).1, ?_⟩
      intro t ht hct
      rcases List.mem_cons.mp ht with h | h
      · omega
      · exact (ih hp.2).2 t h hct
    · rw [purge, if_neg ha]
      refine ⟨?_, fun t ht _ => ht⟩
      intro t ht
      rcases List.mem_cons.mp ht with h | h
      · omega
      · have := hp.1 t h
        omega

lemma purge_length_le (cutoff : Int) : ∀ l : List Int,
    (purge cutoff l).length ≤ l.length := by
  intro l
  induction l with
  | nil => simp [purge]
  | cons a as ih =>
    rw [purge]
    split
    · simp
      omega
    · simp

/-- C7: each tick the window purges the leading entries older than
now minus the window width before counting (for the chronologically ordered
deque this is exactly the stale entries); the warning fires iff the remaining
count reaches the threshold, and then the whole window is cleared; with the
example threshold of 3 in 60s, three entries within the window fire exactly
one warning and clear the window, and a fourth entry on the next tick does
not re-fire. -/
theorem C7_event_window_once (cfg : Config) (events : List Int) (now : Int) :
    (List.Pairwise (· ≤ ·) events →
      (∀ t ∈ purge (now - cfg.alerts.high_load_event_window) events,
        now - cfg.alerts.high_load_event_window ≤ t) ∧
      (∀ t ∈ events, now - cfg.alerts.high_load_event_window ≤ t →
        t ∈ purge (now - cfg.alerts.high_load_event_window) events)) ∧
    ((window_step cfg events now).2 = true ↔
      cfg.alerts.high_load_event_threshold
        ≤ (purge (now - cfg.alerts.high_load_event_window) events).length) ∧
    ((window_step cfg events now).2 = true → (window_step cfg events now).1 = []) ∧
    ((window_step cfg events now).2 = false →
      (window_step cfg events now).1
        = purge (now - cfg.alerts.high_load_event_window) events) ∧
    (window_step exCfg [10, 20, 30] 40 = ([], true) ∧
     window_step exCfg [70] 70 = ([70], false)) := by
  refine ⟨purge_sorted _ events, ?_, ?_, ?_, by decide, by decide⟩
  · simp only [window_step]
    split
    · next h => simp [h]
    · next h => simp [h]
  · simp only [window_step]
    split
    · simp
    · simp
  · simp only [window_step]
    split
    · simp
    · simp

/-- Witness for C7: the purge of the ordered deque [10, 20, 30] at now = 40
under the example 60-second window keeps only entries at or after the
cutoff. -/
theorem C7_witness :
    ∀ t ∈ purge (40 - exCfg.alerts.high_load_event_window) [10, 20, 30],
      40 - exCfg.alerts.high_load_event_window ≤ t :=
  ((C7_event_window_once exCfg [10, 20, 30] 40).1 (by decide)).1

/-! ## C9: bounded event deque -/

lemma dequePush_length_le (cap : Nat) (q : List Int) (x : Int) :
    (dequePush cap q x).length ≤ cap ∨
    (dequePush cap q x).length = q.length + 1 := by
  simp only [dequePush]
  split
  · next h =>
    left
    rw [List.length_drop]
    omega
  · next h =>
    right
    simp

lemma dequePush100_length_le (q : List Int) (x : Int)
    (h : q.length ≤ 100) : (dequePush 100 q x).length ≤ 100 := by
  simp only [dequePush]
  split
  · rw [List.length_drop]
    omega
  · next h2 =>
    simp at h2 ⊢
    omega

lemma sustained_step_events_cases (cfg : Config) (start : Option Int)
    (alerted : Bool) (events : List Int) (w : LoadState) (t n : Int) :
    (sustained_step cfg start alerted events w t n).2.2.1 = events ∨
    (sustained_step cfg start alerted events w t n).2.2.1
      = dequePush 100 events n := by
  unfold sustained_step
  cases start with
  | none =>
    dsimp only
    split
    · exact Or.inr rfl
    · exact Or.inl rfl
  | some s =>
    dsimp only
    split
    · split
      · exact Or.inl rfl
      · exact Or.inl rfl
    · exact Or.inl rfl

lemma window_step_length (cfg : Config) (events : List Int) (n : Int)
    (h : events.length ≤ 100) :
    ((window_step cfg events n).1).length ≤ 100 := by
  simp only [window_step]
  split
  · simp
  · simp
    exact le_trans (purge_length_le _ events) h

/-- C9: high_load_events is a deque(maxlen=100): a push never leaves more
than 100 entries and on overflow the oldest entry is dropped; a tick of
check_alerts preserves the at-most-100 invariant; and when the configured
high_load_event_threshold exceeds 100 the multiple-high-load-events warning
can never fire. -/
theorem C9_event_deque_bounded (cfg : Config) (st : AlertState)
    (c p : LoadState) (t n : Int) :
    (∀ (q : List Int) (x : Int), q.length ≤ 100 →
      (dequePush 100 q x).length ≤ 100) ∧
    (∀ (q : List Int) (x : Int), q.length = 100 →
      dequePush 100 q x = q.drop 1 ++ [x]) ∧
    (st.high_load_events.length ≤ 100 →
      ((check_alerts cfg st c p t n).1.high_load_events).length ≤ 100) ∧
    (st.high_load_events.length ≤ 100 →
      100 < cfg.alerts.high_load_event_threshold →
      (check_alerts cfg st c p t n).2.window_alert = false) := by
  have hev : ∀ hlen : st.high_load_events.length ≤ 100,
      ((sustained_step cfg st.high_load_start st.high_load_alerted
        st.high_load_events (worst_state c p) t n).2.2.1).length ≤ 100 := by
    intro hlen
    rcases sustained_step_events_cases cfg st.high_load_start st.high_load_alerted
        st.high_load_events (worst_state c p) t n with h | h
    · rw [h]
      exact hlen
    · rw [h]
      exact dequePush100_length_le _ n hlen
  refine ⟨fun q x h => dequePush100_length_le q x h, ?_, ?_, ?_⟩
  · intro q x h
    cases q with
    | nil => simp at h
    | cons a q2 =>
      have h2 : q2.length = 99 := by simpa using h
      simp only [dequePush]
      rw [if_pos (by simp [h2])]
      simp [h2]
  · intro hlen
    rw [check_alerts_events]
    exact window_step_length cfg _ n (hev hlen)
  · intro hlen hthr
    rw [check_alerts_win_alert]
    simp only [window_step]
    rw [if_neg (by
      have h1 := purge_length_le (n - cfg.alerts.high_load_event_window)
        ((sustained_step cfg st.high_load_start st.high_load_alerted
          st.high_load_events (worst_state c p) t n).2.2.1)
      have h2 := hev hlen
      omega)]

/-- Witness for C9: with a threshold of 200 (above the capacity 100) no
window warning fires on a tick from the initial state. -/
theorem C9_witness :
    (check_alerts exCfg9 ⟨false, none, false, []⟩ .high .idle 0 0).2.window_alert
      = false :=
  (C9_event_deque_bounded exCfg9 ⟨false, none, false, []⟩ .high .idle 0 0).2.2.2
    (by decide) (by decide)

end FanCtrl
